import Mathlib

/-!
Verification development for `script_remote.py`: a single linear task runner
that fetches the top rising submission of a subreddit from the Reddit JSON
API, formats a three-line Markdown summary, and posts a styled payload to a
Discord webhook.

The embedding models JSON values, Python-style subscripting/iteration, the
`format(score, ",")` thousands formatter, the two functions
`get_rising_submissions` and `post_message`, and the observable trace of a
run of `main` (lines printed, whether the GET was issued, the payload
POSTed, the unhandled exception terminating the run, if any).  The two HTTP
exchanges themselves are exogenous: the GET's response and the POST's
status code are parameters of the model.
-/

/-- A JSON value, as produced by `response.json()` in Python. -/
inductive JsonVal where
  | str (s : String)
  | int (n : Int)
  | bool (b : Bool)
  | null
  | arr (xs : List JsonVal)
  | obj (fields : List (String × JsonVal))

/-- The Python exceptions the script can die of (all unhandled). -/
inductive PyExc where
  | jsonError
  | keyError
  | typeError
  | valueError
deriving DecidableEq, Repr

/-- Python `v[k]` with a string key: dict lookup (KeyError when the key is
absent), TypeError on every non-dict value. -/
def getItem (v : JsonVal) (k : String) : Except PyExc JsonVal :=
  match v with
  | .obj fields =>
    match fields.lookup k with
    | some x => .ok x
    | none => .error .keyError
  | _ => .error .typeError

/-- Python `for item in v`: lists yield their elements, dicts their keys,
strings their one-character substrings; other values raise TypeError. -/
def pyIter (v : JsonVal) : Except PyExc (List JsonVal) :=
  match v with
  | .arr xs => .ok xs
  | .obj fields => .ok (fields.map (fun f => JsonVal.str f.1))
  | .str s => .ok (s.data.map (fun c => JsonVal.str (String.singleton c)))
  | _ => .error .typeError

/-- The single-quote character used by Python `repr` of strings. -/
def pyQuote : String := String.singleton (Char.ofNat 39)

mutual

/-- Python `repr` of a JSON value (escaping of special characters inside
string reprs is elided; no claim depends on container rendering). -/
def pyRepr : JsonVal → String
  | .str s => pyQuote ++ s ++ pyQuote
  | .int n => toString n
  | .bool b => if b then "True" else "False"
  | .null => "None"
  | .arr xs => "[" ++ pyReprList xs ++ "]"
  | .obj fields => "\x7b" ++ pyReprFields fields ++ "\x7d"

/-- Comma-separated reprs of list elements. -/
def pyReprList : List JsonVal → String
  | [] => ""
  | [x] => pyRepr x
  | x :: xs => pyRepr x ++ ", " ++ pyReprList xs

/-- Comma-separated `key: value` reprs of dict entries. -/
def pyReprFields : List (String × JsonVal) → String
  | [] => ""
  | [f] => pyQuote ++ f.1 ++ pyQuote ++ ": " ++ pyRepr f.2
  | f :: fs => pyQuote ++ f.1 ++ pyQuote ++ ": " ++ pyRepr f.2 ++ ", " ++ pyReprFields fs

end

/-- Python `str(v)`, as used when a value is interpolated with an empty
format spec in an f-string. -/
def pyStr : JsonVal → String
  | .str s => s
  | v => pyRepr v

/-- The decimal digit character for `d % 10`. -/
def digitChar (d : Nat) : Char := Char.ofNat (48 + d % 10)

/-- Decimal digit extraction, structurally recursive on a fuel bound so
that it evaluates inside the kernel; with fuel above `n` it computes the
decimal digits of `n`, least significant first. -/
def natDecimalRevFuel : Nat → Nat → List Char
  | 0, _ => []
  | fuel + 1, n =>
    if n < 10 then [digitChar n]
    else digitChar (n % 10) :: natDecimalRevFuel fuel (n / 10)

/-- Decimal digits of `n`, least significant first. -/
def natDecimalRev (n : Nat) : List Char := natDecimalRevFuel (n + 1) n

/-- Insert `,` before every digit whose index (from the least significant
digit, starting at `k`) is a positive multiple of 3. -/
def commaGroupRev : List Char → Nat → List Char
  | [], _ => []
  | c :: cs, k =>
    if k ≠ 0 ∧ k % 3 = 0 then ',' :: c :: commaGroupRev cs (k + 1)
    else c :: commaGroupRev cs (k + 1)

/-- Python `format(n, ",")` for a non-negative integer: decimal digits with
a comma between each group of three, counted from the right. -/
def pyCommaNat (n : Nat) : String :=
  String.mk (commaGroupRev (natDecimalRev n) 0).reverse

/-- Python `format(i, ",")` for an arbitrary integer. -/
def pyCommaInt : Int → String
  | .ofNat n => pyCommaNat n
  | .negSucc m => "-" ++ pyCommaNat (m + 1)

/-- Python `f"…{v:,}…"`: ints (and bools, which are ints) format with
thousands separators; strings raise ValueError, other values TypeError. -/
def pyFormatComma (v : JsonVal) : Except PyExc String :=
  match v with
  | .int n => .ok (pyCommaInt n)
  | .bool b => .ok (if b then "1" else "0")
  | .str _ => .error .valueError
  | _ => .error .typeError

/-- Python `s + v` for a string `s`: string concatenation when `v` is a
string, TypeError otherwise. -/
def pyStrAdd (s : String) (v : JsonVal) : Except PyExc String :=
  match v with
  | .str t => .ok (s ++ t)
  | _ => .error .typeError

/-- The outcome of `requests.get`: the HTTP status code and the body,
`none` when the body does not parse as JSON. -/
structure HttpResponse where
  status : Nat
  body : Option JsonVal

/-- `response.json()`: parses the body irrespective of the status code,
raising when the body is not JSON. -/
def HttpResponse.json (response : HttpResponse) : Except PyExc JsonVal :=
  match response.body with
  | some v => .ok v
  | none => .error .jsonError

/-- The URL requested by `get_rising_submissions` (the request itself is
exogenous to the model). -/
def requestUrl (subreddit : String) : String :=
  "https://www.reddit.com/r/" ++ subreddit ++ "/rising.json?limit=1"

/-- The headers sent with the GET request. -/
def requestHeaders : List (String × String) :=
  [("User-Agent", "Reddit Rising Checker v1.0")]

/-- `get_rising_submissions`, applied to the response of the GET request.
Extracts `data.children`, and for the first child builds the Markdown
message and returns it with the child's `url`; when the children sequence
is empty the `for` loop finishes and the function returns Python `None`
(`Option.none`).  Subscript, concatenation and formatting errors propagate
as exceptions. -/
def get_rising_submissions (response : HttpResponse) :
    Except PyExc (Option (String × JsonVal)) := do
  let body ← response.json
  let dataField ← getItem body "data"
  let children ← getItem dataField "children"
  let items ← pyIter children
  match items with
  | [] => return none
  | item :: _ => do
    let item_data ← getItem item "data"
    let title ← getItem item_data "title"
    let permalink ← pyStrAdd "https://reddit.com" (← getItem item_data "permalink")
    let author ← getItem item_data "author"
    let score ← getItem item_data "score"
    let image_url ← getItem item_data "url"
    let scoreText ← pyFormatComma score
    let message := "[" ++ pyStr title ++ "](" ++ permalink ++ ")\nby **" ++
      pyStr author ++ "**\n**" ++ scoreText ++ "** points"
    return some (message, image_url)

/-- The footer text exactly as written in the source file (the trademark
sign appears there as the three mojibake characters U+00E2 U+201E U+00A2). -/
def footerText : String := "Powered by Elf Magicâ„¢"

/-- The JSON payload built by `post_message`. -/
def post_payload (message : String) (image_url : JsonVal) : JsonVal :=
  .obj [("username", .str "Rising Posts"),
        ("embeds", .arr [
          .obj [("title", .str "Top Rising Post"),
                ("color", .int 102204),
                ("description", .str message),
                ("thumbnail", .obj [("url", image_url)]),
                ("footer", .obj [("text", .str footerText)])]])]

/-- `post_message`: builds the payload, POSTs it (exogenous; `postStatus`
is the status code of the POST's response) and prints the status code.
Returns the payload sent and the line printed. -/
def post_message (message : String) (image_url : JsonVal) (postStatus : Nat) :
    JsonVal × String :=
  (post_payload message image_url, Nat.repr postStatus)

/-- The observable trace of one run: lines printed to stdout, whether the
GET was issued, the payload POSTed (none when no delivery was attempted),
and the unhandled exception terminating the run, if any. -/
structure RunTrace where
  printed : List String
  getIssued : Bool
  delivered : Option JsonVal
  exc : Option PyExc

/-- `main`: prints a progress line, issues the GET, unpacks the result of
`get_rising_submissions` (unpacking Python `None` raises TypeError), prints
a second progress line and calls `post_message`. -/
def mainRun (response : HttpResponse) (postStatus : Nat) : RunTrace :=
  match get_rising_submissions response with
  | .error e => ⟨["Connecting to Reddit..."], true, none, some e⟩
  | .ok none => ⟨["Connecting to Reddit..."], true, none, some .typeError⟩
  | .ok (some (message, image_url)) =>
    let result := post_message message image_url postStatus
    ⟨["Connecting to Reddit...", "Data received. Sending webhook...", result.2],
      true, some result.1, none⟩

/-- The whole program: the module-level `WEBHOOK_URL = os.environ["WEBHOOK"]`
runs first and raises KeyError when the variable is absent, before anything
is printed and before any network call; otherwise `main` runs. -/
def program (env : List (String × String)) (response : HttpResponse)
    (postStatus : Nat) : RunTrace :=
  match env.lookup "WEBHOOK" with
  | none => ⟨[], false, none, some .keyError⟩
  | some _ => mainRun response postStatus

/-- A listing item of the shape assumed by the spec: string `title`,
`permalink`, `author`, `url` and integer `score` under `data`. -/
def mkItem (title permalink author : String) (score : Int) (url : String) :
    JsonVal :=
  .obj [("data", .obj [("title", .str title),
                       ("permalink", .str permalink),
                       ("author", .str author),
                       ("score", .int score),
                       ("url", .str url)])]

/-- A well-formed listing body with the given children. -/
def mkListing (children : List JsonVal) : JsonVal :=
  .obj [("data", .obj [("children", .arr children)])]

/-- A response carrying a well-formed listing body. -/
def mkResponse (status : Nat) (children : List JsonVal) : HttpResponse :=
  ⟨status, some (mkListing children)⟩

/-- The summary `get_rising_submissions` builds from the first item's
fields. -/
def summaryOf (title permalink author : String) (score : Int) : String :=
  "[" ++ title ++ "](" ++ ("https://reddit.com" ++ permalink) ++ ")\nby **" ++
    author ++ "**\n**" ++ pyCommaInt score ++ "** points"

/-- The listing item of the end-to-end scenario. -/
def sampleItem : JsonVal :=
  mkItem "Cute cat" "/r/pics/comments/x/cute_cat/" "catlover" 4200
    "https://i.example/cat.jpg"

/-- A well-formed response whose only child is the sample item. -/
def sampleResponse : HttpResponse := mkResponse 200 [sampleItem]

/-- Split a character sequence at newline characters; the result always
has one entry more than the number of newlines, so "exactly three lines"
is "`splitNl` yields a three-element list". -/
def splitNl : List Char → List (List Char)
  | [] => [[]]
  | c :: cs =>
    if c = '\n' then [] :: splitNl cs
    else
      match splitNl cs with
      | [] => [[c]]
      | l :: ls => (c :: l) :: ls

/-- The first summary line: the markdown link. -/
def linkLine (t p : String) : String :=
  "[" ++ t ++ "](" ++ ("https://reddit.com" ++ p) ++ ")"

/-- The second summary line: the author. -/
def authorLine (a : String) : String := "by **" ++ a ++ "**"

/-- The third summary line: the grouped score and the word "points". -/
def scoreLine (sc : Int) : String := "**" ++ pyCommaInt sc ++ "** points"

/-- Spec-side definition, from the spec's words: the decimal digits of a
number, most significant first. -/
def specDigits (n : Nat) : List Char :=
  if n < 10 then [digitChar n]
  else specDigits (n / 10) ++ [digitChar (n % 10)]
termination_by n
decreasing_by exact Nat.div_lt_self (by omega) (by omega)

/-- The last three decimal digits of `m`, zero-padded to width three. -/
def pad3 (m : Nat) : String :=
  String.mk [digitChar (m / 100), digitChar (m / 10 % 10), digitChar (m % 10)]

/-- Spec-side definition, from the spec's words ("the score rendered with
thousands-separators"): the decimal rendering with the digits taken in
groups of three from the right, the groups separated by commas. -/
def specCommaNat (n : Nat) : String :=
  if n < 1000 then String.mk (specDigits n)
  else specCommaNat (n / 1000) ++ "," ++ pad3 (n % 1000)
termination_by n
decreasing_by exact Nat.div_lt_self (by omega) (by omega)

/-- Spec-side thousands-grouping extended to negative scores. -/
def specCommaInt : Int → String
  | .ofNat n => specCommaNat n
  | .negSucc m => "-" ++ specCommaNat (m + 1)

/-! ### Basic lemmas about the embedding -/

theorem string_ext (s t : String) (h : s.data = t.data) : s = t := by
  cases s
  cases t
  exact congrArg String.mk h

theorem string_data_append (s t : String) : (s ++ t).data = s.data ++ t.data :=
  String.data_append s t

theorem natDecimalRevFuel_congr (f g m : Nat) (hf : m < f) (hg : m < g) :
    natDecimalRevFuel f m = natDecimalRevFuel g m := by
  induction f generalizing g m with
  | zero => omega
  | succ f ih =>
    cases g with
    | zero => omega
    | succ g =>
      simp only [natDecimalRevFuel]
      by_cases h : m < 10
      · simp [h]
      · simp only [if_neg h]
        exact congrArg _ (ih g (m / 10) (by omega) (by omega))

theorem natDecimalRev_small (n : Nat) (h : n < 10) :
    natDecimalRev n = [digitChar n] := by
  simp [natDecimalRev, natDecimalRevFuel, h]

theorem natDecimalRev_step (n : Nat) (h : ¬ n < 10) :
    natDecimalRev n = digitChar (n % 10) :: natDecimalRev (n / 10) := by
  simp only [natDecimalRev, natDecimalRevFuel, if_neg h]
  exact congrArg _ (natDecimalRevFuel_congr n (n / 10 + 1) (n / 10) (by omega) (by omega))

theorem natDecimalRev_ne_nil (n : Nat) : natDecimalRev n ≠ [] := by
  by_cases h : n < 10
  · rw [natDecimalRev_small n h]
    simp
  · rw [natDecimalRev_step n h]
    simp

/-- The summary returned for a well-formed response whose first child has
the given fields: later children, the item's `url` and the HTTP status do
not enter the summary, and the returned image URL is the item's `url`. -/
theorem get_first_item_eq (status : Nat) (t p a : String) (sc : Int) (u : String)
    (rest : List JsonVal) :
    get_rising_submissions (mkResponse status (mkItem t p a sc u :: rest)) =
      .ok (some (summaryOf t p a sc, .str u)) := rfl

/-! ### Claim theorems -/

/-- C1: for the listing item with title "Cute cat", permalink
"/r/pics/comments/x/cute_cat/", author "catlover", score 4200 and url
"https://i.example/cat.jpg" as the only child of a well-formed response,
`get_rising_submissions` returns exactly the three-line summary
`[Cute cat](https://reddit.com/r/pics/comments/x/cute_cat/)` / `by **catlover**`
/ `**4,200** points` paired with the image URL "https://i.example/cat.jpg". -/
theorem c1_end_to_end_sample :
    get_rising_submissions sampleResponse =
      .ok (some ("[Cute cat](https://reddit.com/r/pics/comments/x/cute_cat/)\nby **catlover**\n**4,200** points",
        .str "https://i.example/cat.jpg")) := by
  have hs : summaryOf "Cute cat" "/r/pics/comments/x/cute_cat/" "catlover" 4200 =
      "[Cute cat](https://reddit.com/r/pics/comments/x/cute_cat/)\nby **catlover**\n**4,200** points" := by
    decide
  have h : get_rising_submissions sampleResponse =
      .ok (some (summaryOf "Cute cat" "/r/pics/comments/x/cute_cat/" "catlover" 4200,
        .str "https://i.example/cat.jpg")) :=
    get_first_item_eq 200 "Cute cat" "/r/pics/comments/x/cute_cat/" "catlover" 4200
      "https://i.example/cat.jpg" []
  rw [h, hs]

/-- C2: on a well-formed response with an empty children sequence the `for`
loop of `get_rising_submissions` never runs, the function returns Python
`None` instead of any summary, and the run dies unpacking it (an unhandled
TypeError) with nothing delivered and no second progress line: a
deterministic fatal failure of the fetch step with no delivery attempt. -/
theorem c2_empty_children_fatal (status postStatus : Nat) :
    get_rising_submissions (mkResponse status []) = .ok none ∧
    mainRun (mkResponse status []) postStatus =
      ⟨["Connecting to Reddit..."], true, none, some .typeError⟩ :=
  ⟨rfl, rfl⟩

/-- C3 counterexample: a GET response with the non-2xx status 404 but a
well-formed listing body is processed normally — the run terminates with no
exception and the webhook delivery is attempted — so a non-2xx status does
not, by itself, terminate the run. -/
theorem c3_counterexample :
    299 < (mkResponse 404 [sampleItem]).status ∧
    (mainRun (mkResponse 404 [sampleItem]) 204).exc = none ∧
    (mainRun (mkResponse 404 [sampleItem]) 204).delivered =
      some (post_payload
        ("[Cute cat](https://reddit.com/r/pics/comments/x/cute_cat/)\nby **catlover**\n**4,200** points")
        (.str "https://i.example/cat.jpg")) := by
  refine ⟨by decide, rfl, ?_⟩
  have hs : summaryOf "Cute cat" "/r/pics/comments/x/cute_cat/" "catlover" 4200 =
      "[Cute cat](https://reddit.com/r/pics/comments/x/cute_cat/)\nby **catlover**\n**4,200** points" := by
    decide
  show some (post_payload (summaryOf "Cute cat" "/r/pics/comments/x/cute_cat/" "catlover" 4200)
      (.str "https://i.example/cat.jpg")) = _
  rw [hs]

/-- C3 (amended): the fetch never inspects the GET status code — for every
body the run's trace is identical across all status codes — and a response
whose body is not JSON terminates the run with an unrecovered failure and
no delivery attempt, whatever its status. -/
theorem c3_amended_status_never_inspected (s s' : Nat) (b : Option JsonVal)
    (postStatus : Nat) :
    mainRun ⟨s, b⟩ postStatus = mainRun ⟨s', b⟩ postStatus ∧
    mainRun ⟨s, none⟩ postStatus =
      ⟨["Connecting to Reddit..."], true, none, some .jsonError⟩ :=
  ⟨rfl, rfl⟩

/-- C4: for every summary text and image URL, the payload built by
`post_message` carries the fixed fields verbatim: username "Rising Posts",
a single embed with title "Top Rising Post", color 102204, and the
stylized "Powered by Elf Magic" trademark footer, independent of input. -/
theorem c4_fixed_payload_fields (m : String) (u : JsonVal) :
    getItem (post_payload m u) "username" = .ok (.str "Rising Posts") ∧
    ∃ embed : JsonVal,
      getItem (post_payload m u) "embeds" = .ok (.arr [embed]) ∧
      getItem embed "title" = .ok (.str "Top Rising Post") ∧
      getItem embed "color" = .ok (.int 102204) ∧
      (getItem embed "footer").bind (fun f => getItem f "text") =
        .ok (.str footerText) :=
  ⟨rfl, _, rfl, rfl, rfl, rfl⟩

/-- C5: whatever status code the webhook POST completes with — 2xx or not —
`post_message` prints exactly that code in decimal, and the run finishes
with no exception and all three lines printed; a non-2xx delivery status is
never treated as an error. -/
theorem c5_status_printed_never_error (m : String) (u : JsonVal) (st : Nat) :
    (post_message m u st).2 = Nat.repr st ∧
    (mainRun sampleResponse st).exc = none ∧
    (mainRun sampleResponse st).printed =
      ["Connecting to Reddit...", "Data received. Sending webhook...", Nat.repr st] :=
  ⟨rfl, rfl, rfl⟩

/-- C6: when the environment has no "WEBHOOK" entry, the module-level
lookup fails with an unrecovered KeyError before anything else happens:
nothing is printed, the GET is never issued and nothing is delivered. -/
theorem c6_missing_webhook_fails_first (env : List (String × String))
    (response : HttpResponse) (postStatus : Nat)
    (h : env.lookup "WEBHOOK" = none) :
    program env response postStatus = ⟨[], false, none, some .keyError⟩ := by
  unfold program
  rw [h]

/-- Witness for C6 at the empty environment. -/
theorem c6_missing_webhook_witness :
    ([] : List (String × String)).lookup "WEBHOOK" = none ∧
    program [] ⟨200, none⟩ 0 = ⟨[], false, none, some .keyError⟩ :=
  ⟨rfl, c6_missing_webhook_fails_first [] ⟨200, none⟩ 0 rfl⟩

/-- C7: for every listing item the permalink embedded in the summary's link
line is the fixed origin "https://reddit.com" concatenated verbatim with the
item's permalink path, as the example path "/r/pics/comments/abc123/title/"
illustrates. -/
theorem c7_permalink_concatenation (status : Nat) (t p a : String) (sc : Int)
    (u : String) (rest : List JsonVal) :
    get_rising_submissions (mkResponse status (mkItem t p a sc u :: rest)) =
      .ok (some ("[" ++ t ++ "](" ++ ("https://reddit.com" ++ p) ++ ")\nby **" ++
        a ++ "**\n**" ++ pyCommaInt sc ++ "** points", .str u)) ∧
    "https://reddit.com" ++ "/r/pics/comments/abc123/title/" =
      "https://reddit.com/r/pics/comments/abc123/title/" :=
  ⟨get_first_item_eq status t p a sc u rest, by decide⟩

/-- C10: two well-formed responses whose first items agree on title,
permalink, author and score produce the same summary — the summary does not
depend on the status, the first item's url or the later children — while
each returned image URL is exactly its own first item's url field. -/
theorem c10_noninterference (status₁ status₂ : Nat) (t p a : String) (sc : Int)
    (u₁ u₂ : String) (rest₁ rest₂ : List JsonVal) :
    get_rising_submissions (mkResponse status₁ (mkItem t p a sc u₁ :: rest₁)) =
      .ok (some (summaryOf t p a sc, .str u₁)) ∧
    get_rising_submissions (mkResponse status₂ (mkItem t p a sc u₂ :: rest₂)) =
      .ok (some (summaryOf t p a sc, .str u₂)) :=
  ⟨get_first_item_eq status₁ t p a sc u₁ rest₁,
   get_first_item_eq status₂ t p a sc u₂ rest₂⟩

/-! ### Line structure of the summary -/

theorem splitNl_no_newline : ∀ (cs : List Char), '\n' ∉ cs → splitNl cs = [cs]
  | [], _ => rfl
  | c :: cs, h => by
    have hc : ¬ c = '\n' := fun he => h (he ▸ List.mem_cons_self c cs)
    have ih := splitNl_no_newline cs (fun hm => h (List.mem_cons_of_mem c hm))
    simp [splitNl, hc, ih]

theorem splitNl_append_newline : ∀ (xs ys : List Char), '\n' ∉ xs →
    splitNl (xs ++ '\n' :: ys) = xs :: splitNl ys
  | [], ys, _ => by simp [splitNl]
  | x :: xs, ys, h => by
    have hx : ¬ x = '\n' := fun he => h (he ▸ List.mem_cons_self x xs)
    have ih := splitNl_append_newline xs ys (fun hm => h (List.mem_cons_of_mem x hm))
    simp [splitNl, hx, ih]

theorem noNl_append (s t : String) (hs : '\n' ∉ s.data) (ht : '\n' ∉ t.data) :
    '\n' ∉ (s ++ t).data := by
  rw [string_data_append]
  intro h
  rcases List.mem_append.mp h with h | h
  exacts [hs h, ht h]

theorem digitChar_ne_newline (d : Nat) : digitChar d ≠ '\n' := by
  unfold digitChar
  have h : d % 10 < 10 := Nat.mod_lt d (by norm_num)
  set e := d % 10 with he
  interval_cases e <;> decide

theorem newline_not_mem_natDecimalRev (n : Nat) : '\n' ∉ natDecimalRev n := by
  induction n using Nat.strong_induction_on with
  | _ n ih =>
    by_cases h : n < 10
    · rw [natDecimalRev_small n h]
      simp [Ne.symm (digitChar_ne_newline n)]
    · rw [natDecimalRev_step n h]
      intro hmem
      rcases List.mem_cons.mp hmem with hm | hm
      · exact digitChar_ne_newline _ hm.symm
      · exact ih (n / 10) (by omega) hm

theorem newline_not_mem_commaGroupRev : ∀ (l : List Char) (k : Nat),
    '\n' ∉ l → '\n' ∉ commaGroupRev l k
  | [], _, _ => by simp [commaGroupRev]
  | c :: cs, k, h => by
    have hc : '\n' ≠ c := fun he => h (he ▸ List.mem_cons_self c cs)
    have ih := newline_not_mem_commaGroupRev cs (k + 1)
      (fun hm => h (List.mem_cons_of_mem c hm))
    unfold commaGroupRev
    split
    · intro hmem
      rcases List.mem_cons.mp hmem with hm | hm
      · exact absurd hm (by decide)
      · rcases List.mem_cons.mp hm with hm | hm
        · exact hc hm
        · exact ih hm
    · intro hmem
      rcases List.mem_cons.mp hmem with hm | hm
      · exact hc hm
      · exact ih hm

theorem newline_not_mem_pyCommaNat (n : Nat) : '\n' ∉ (pyCommaNat n).data := by
  show '\n' ∉ (commaGroupRev (natDecimalRev n) 0).reverse
  rw [List.mem_reverse]
  exact newline_not_mem_commaGroupRev _ 0 (newline_not_mem_natDecimalRev n)

theorem newline_not_mem_pyCommaInt (i : Int) : '\n' ∉ (pyCommaInt i).data := by
  cases i with
  | ofNat n => exact newline_not_mem_pyCommaNat n
  | negSucc m =>
    show '\n' ∉ ("-" ++ pyCommaNat (m + 1)).data
    exact noNl_append _ _ (by decide) (newline_not_mem_pyCommaNat (m + 1))

theorem newline_not_mem_linkLine (t p : String) (ht : '\n' ∉ t.data)
    (hp : '\n' ∉ p.data) : '\n' ∉ (linkLine t p).data := by
  refine noNl_append _ _ (noNl_append _ _ (noNl_append _ _ (noNl_append _ _ ?_ ht) ?_)
    (noNl_append _ _ ?_ hp)) ?_ <;> decide

theorem newline_not_mem_authorLine (a : String) (ha : '\n' ∉ a.data) :
    '\n' ∉ (authorLine a).data :=
  noNl_append _ _ (noNl_append _ _ (by decide) ha) (by decide)

theorem newline_not_mem_scoreLine (sc : Int) : '\n' ∉ (scoreLine sc).data :=
  noNl_append _ _ (noNl_append _ _ (by decide) (newline_not_mem_pyCommaInt sc)) (by decide)

/-- The summary is the three lines joined by single newline characters. -/
theorem summaryOf_decomp (t p a : String) (sc : Int) :
    summaryOf t p a sc = linkLine t p ++ "\n" ++ authorLine a ++ "\n" ++ scoreLine sc := by
  apply string_ext
  have e1 : (")\nby **" : String).data = [')', '\n', 'b', 'y', ' ', '*', '*'] := rfl
  have e2 : ("**\n**" : String).data = ['*', '*', '\n', '*', '*'] := rfl
  simp [summaryOf, linkLine, authorLine, scoreLine, string_data_append, e1, e2]

theorem data_three_lines (x y z : String) :
    (x ++ "\n" ++ y ++ "\n" ++ z).data = x.data ++ '\n' :: (y.data ++ '\n' :: z.data) := by
  have e : ("\n" : String).data = ['\n'] := rfl
  simp [string_data_append, e]

/-- C8 counterexample: a well-formed single-item response whose title "T"
and author "A" contain no newline — but whose permalink path does — yields
a summary of four lines, not three, so newline-freedom of title and author
alone does not bound the line count. -/
theorem c8_counterexample :
    ('\n' ∉ ("T" : String).data) ∧ ('\n' ∉ ("A" : String).data) ∧
    get_rising_submissions (mkResponse 200 [mkItem "T" "/x\ny/" "A" 1 "u"]) =
      .ok (some ("[T](https://reddit.com/x\ny/)\nby **A**\n**1** points", .str "u")) ∧
    (splitNl ("[T](https://reddit.com/x\ny/)\nby **A**\n**1** points" : String).data).length = 4 := by
  refine ⟨by decide, by decide, ?_, by decide⟩
  have hs : summaryOf "T" "/x\ny/" "A" 1 =
      "[T](https://reddit.com/x\ny/)\nby **A**\n**1** points" := by decide
  rw [get_first_item_eq 200 "T" "/x\ny/" "A" 1 "u" [], hs]

/-- C8 (amended): for every well-formed listing response with at least one
item whose title, author and permalink path contain no newline characters,
the summary splits at newlines into exactly three lines in the fixed
order: link line, author line, score line. -/
theorem c8_amended_three_lines (status : Nat) (t p a : String) (sc : Int)
    (u : String) (rest : List JsonVal)
    (ht : '\n' ∉ t.data) (ha : '\n' ∉ a.data) (hp : '\n' ∉ p.data) :
    get_rising_submissions (mkResponse status (mkItem t p a sc u :: rest)) =
      .ok (some (summaryOf t p a sc, .str u)) ∧
    splitNl (summaryOf t p a sc).data =
      [(linkLine t p).data, (authorLine a).data, (scoreLine sc).data] := by
  refine ⟨get_first_item_eq status t p a sc u rest, ?_⟩
  rw [summaryOf_decomp, data_three_lines,
    splitNl_append_newline _ _ (newline_not_mem_linkLine t p ht hp),
    splitNl_append_newline _ _ (newline_not_mem_authorLine a ha),
    splitNl_no_newline _ (newline_not_mem_scoreLine sc)]

/-- Witness for the amended C8 at the sample item. -/
theorem c8_amended_witness :
    ('\n' ∉ ("Cute cat" : String).data) ∧ ('\n' ∉ ("catlover" : String).data) ∧
    ('\n' ∉ ("/r/pics/comments/x/cute_cat/" : String).data) ∧
    (get_rising_submissions (mkResponse 200
        [mkItem "Cute cat" "/r/pics/comments/x/cute_cat/" "catlover" 4200 "https://i.example/cat.jpg"]) =
      .ok (some (summaryOf "Cute cat" "/r/pics/comments/x/cute_cat/" "catlover" 4200,
        .str "https://i.example/cat.jpg")) ∧
     splitNl (summaryOf "Cute cat" "/r/pics/comments/x/cute_cat/" "catlover" 4200).data =
      [(linkLine "Cute cat" "/r/pics/comments/x/cute_cat/").data,
       (authorLine "catlover").data, (scoreLine 4200).data]) :=
  ⟨by decide, by decide, by decide,
   c8_amended_three_lines 200 "Cute cat" "/r/pics/comments/x/cute_cat/" "catlover" 4200
     "https://i.example/cat.jpg" [] (by decide) (by decide) (by decide)⟩

/-! ### The thousands grouping refines the spec-side definition -/

theorem commaGroupRev_small : ∀ (l : List Char) (k : Nat),
    l.length + k ≤ 3 → commaGroupRev l k = l
  | [], _, _ => rfl
  | c :: cs, k, h => by
    have hlen : cs.length + (k + 1) ≤ 3 := by
      simp [List.length_cons] at h
      omega
    have hk : k ≤ 2 := by
      simp [List.length_cons] at h
      omega
    unfold commaGroupRev
    rw [if_neg (by rintro ⟨h0, h3⟩; omega), commaGroupRev_small cs (k + 1) hlen]

theorem natDecimalRev_length_le_one (n : Nat) (h : n < 10) :
    (natDecimalRev n).length ≤ 1 := by
  rw [natDecimalRev_small n h]
  simp

theorem natDecimalRev_length_le_two (n : Nat) (h : n < 100) :
    (natDecimalRev n).length ≤ 2 := by
  by_cases h1 : n < 10
  · have := natDecimalRev_length_le_one n h1
    omega
  · rw [natDecimalRev_step n h1]
    have := natDecimalRev_length_le_one (n / 10) (by omega)
    simp [List.length_cons]
    omega

theorem natDecimalRev_length_le_three (n : Nat) (h : n < 1000) :
    (natDecimalRev n).length ≤ 3 := by
  by_cases h1 : n < 10
  · have := natDecimalRev_length_le_one n h1
    omega
  · rw [natDecimalRev_step n h1]
    have := natDecimalRev_length_le_two (n / 10) (by omega)
    simp [List.length_cons]
    omega

theorem natDecimalRev_reverse (n : Nat) : (natDecimalRev n).reverse = specDigits n := by
  induction n using Nat.strong_induction_on with
  | _ n ih =>
    by_cases h : n < 10
    · rw [natDecimalRev_small n h]
      unfold specDigits
      rw [if_pos h]
      rfl
    · rw [natDecimalRev_step n h]
      unfold specDigits
      rw [if_neg h, List.reverse_cons, ih (n / 10) (by omega)]

theorem commaGroupRev_shift : ∀ (l : List Char) (k : Nat), 1 ≤ k →
    commaGroupRev l (k + 3) = commaGroupRev l k
  | [], _, _ => rfl
  | c :: cs, k, hk => by
    have hrec : commaGroupRev cs (k + 3 + 1) = commaGroupRev cs (k + 1) := by
      have e : k + 3 + 1 = (k + 1) + 3 := by omega
      rw [e, commaGroupRev_shift cs (k + 1) (by omega)]
    unfold commaGroupRev
    by_cases hc : k ≠ 0 ∧ k % 3 = 0
    · rw [if_pos ⟨by omega, by omega⟩, if_pos hc, hrec]
    · rw [if_neg (fun hq => hc ⟨by omega, by omega⟩), if_neg hc, hrec]

theorem commaGroupRev_cons3 (a b c : Char) (l : List Char) :
    commaGroupRev (a :: b :: c :: l) 0 = a :: b :: c :: commaGroupRev l 3 := by
  simp [commaGroupRev]

theorem commaGroupRev_comma_at_three : ∀ (l : List Char), l ≠ [] →
    commaGroupRev l 3 = ',' :: commaGroupRev l 0
  | [], h => absurd rfl h
  | c :: cs, _ => by
    have := commaGroupRev_shift cs 1 (by omega)
    simp only [commaGroupRev, if_pos (by omega : (3 : Nat) ≠ 0 ∧ 3 % 3 = 0),
      if_neg (by omega : ¬((0 : Nat) ≠ 0 ∧ 0 % 3 = 0))]
    simpa using this

theorem natDecimalRev_decomp (n : Nat) (h : 1000 ≤ n) :
    natDecimalRev n = digitChar (n % 10) :: digitChar (n / 10 % 10) ::
      digitChar (n / 100 % 10) :: natDecimalRev (n / 1000) := by
  have e1 := natDecimalRev_step n (by omega)
  have e2 := natDecimalRev_step (n / 10) (by omega)
  have e3 := natDecimalRev_step (n / 10 / 10) (by omega)
  rw [e1, e2, e3]
  have d1 : n / 10 / 10 = n / 100 := by omega
  rw [d1]
  have d2 : n / 100 / 10 = n / 1000 := by omega
  rw [d2]

/-- The embedded Python formatter agrees with the spec-side grouping. -/
theorem pyCommaNat_eq_specCommaNat (n : Nat) : pyCommaNat n = specCommaNat n := by
  induction n using Nat.strong_induction_on with
  | _ n ih =>
    by_cases h : n < 1000
    · unfold pyCommaNat specCommaNat
      rw [if_pos h,
        commaGroupRev_small _ 0 (by have := natDecimalRev_length_le_three n h; omega),
        natDecimalRev_reverse]
    · unfold pyCommaNat specCommaNat
      rw [if_neg h, natDecimalRev_decomp n (by omega), commaGroupRev_cons3,
        commaGroupRev_comma_at_three _ (natDecimalRev_ne_nil _),
        ← ih (n / 1000) (by omega)]
      unfold pyCommaNat pad3
      apply string_ext
      have ha : n % 1000 / 100 = n / 100 % 10 := by omega
      have hb : n % 1000 / 10 % 10 = n / 10 % 10 := by omega
      have hcq : n % 1000 % 10 = n % 10 := by omega
      simp [string_data_append, ha, hb, hcq, List.append_assoc]

theorem pyCommaInt_eq_specCommaInt (i : Int) : pyCommaInt i = specCommaInt i := by
  cases i with
  | ofNat n => exact pyCommaNat_eq_specCommaNat n
  | negSucc m =>
    show "-" ++ pyCommaNat (m + 1) = "-" ++ specCommaNat (m + 1)
    rw [pyCommaNat_eq_specCommaNat (m + 1)]

/-- C9: for every integer score the summary's third line is the score
rendered by the embedded thousands formatter followed by "** points"; that
formatter agrees with the spec-side groups-of-three-from-the-right
definition on every integer, and renders the example 12345 as "12,345". -/
theorem c9_score_thousands_grouping (status : Nat) (t p a : String) (sc : Int)
    (u : String) (rest : List JsonVal) :
    get_rising_submissions (mkResponse status (mkItem t p a sc u :: rest)) =
      .ok (some (summaryOf t p a sc, .str u)) ∧
    summaryOf t p a sc =
      linkLine t p ++ "\n" ++ authorLine a ++ "\n" ++ ("**" ++ pyCommaInt sc ++ "** points") ∧
    (∀ i : Int, pyCommaInt i = specCommaInt i) ∧
    pyCommaInt 12345 = "12,345" :=
  ⟨get_first_item_eq status t p a sc u rest, summaryOf_decomp t p a sc,
   pyCommaInt_eq_specCommaInt, by decide⟩
